import Mathlib

/-!
Verification development for the capy-search application
(`src/main.rs`, `src/styles/modern.rs`, `src/components/tags.rs`).

Rust strings are modelled as lists of characters, `f32` color components
as exact rationals, and the message-driven update loop as a step function
returning `Except App App`, where `Except.error s` models the panic path
(an unchecked index access) with `s` the state at the moment of the crash.
-/

namespace CapySearch

/-- Rust `String` / `&str`, modelled as a list of characters. -/
abbrev Str := List Char

/-- Rust `str::trim`: remove leading whitespace, then trailing whitespace
(the trailing side is modelled by reversing, dropping, reversing back). -/
def trim (s : Str) : Str :=
  ((s.dropWhile Char.isWhitespace).reverse.dropWhile Char.isWhitespace).reverse

/-- `ModernTheme` from `styles/modern.rs`. -/
inductive ModernTheme
  | Dark
  | Light
deriving DecidableEq

/-- Normalized RGBA color in `[0,1]^4` (iced `Color`), with exact rational
components standing in for `f32`. -/
structure Color where
  r : ℚ
  g : ℚ
  b : ℚ
  a : ℚ
deriving DecidableEq

/-- Human-readable RGBA tuple, channels in `[0,255]`, alpha in `[0,100]`. -/
abbrev RGBAColor := ℚ × ℚ × ℚ × ℚ

/-- Human-readable RGB tuple, channels in `[0,255]`. -/
abbrev RGBColor := ℚ × ℚ × ℚ

/-- `PaletteConversor::from_rgba`: divide channels by 255 and alpha by 100. -/
def from_rgba (r g b a : ℚ) : Color :=
  ⟨r / 255, g / 255, b / 255, a / 100⟩

/-- `PaletteConversor::from_rgb`: divide channels by 255, alpha fixed at 1
(fully opaque). -/
def from_rgb (r g b : ℚ) : Color :=
  ⟨r / 255, g / 255, b / 255, 1⟩

/-- `iced::Color::TRANSPARENT`. -/
def TRANSPARENT : Color := ⟨0, 0, 0, 0⟩

/-- `iced::Color::BLACK`, the default `text_color` of a button appearance. -/
def BLACK : Color := ⟨0, 0, 0, 1⟩

/-- The `color!(r, g, b)` macro of iced: channels over 255, opaque. -/
def iced_color (r g b : ℚ) : Color :=
  ⟨r / 255, g / 255, b / 255, 1⟩

/-- `ButtonsPalette` record from `styles/modern.rs`. -/
structure ButtonsPalette where
  text : RGBAColor
  principal : RGBAColor
  secondary : RGBAColor
  tag : RGBAColor
deriving DecidableEq

def ButtonsPalette.label (p : ButtonsPalette) : Color :=
  match p.text with
  | (r, g, b, a) => from_rgba r g b a

def ButtonsPalette.primary (p : ButtonsPalette) : Color :=
  match p.principal with
  | (r, g, b, a) => from_rgba r g b a

def ButtonsPalette.secondaryColor (p : ButtonsPalette) : Color :=
  match p.secondary with
  | (r, g, b, a) => from_rgba r g b a

def ButtonsPalette.tagColor (p : ButtonsPalette) : Color :=
  match p.tag with
  | (r, g, b, a) => from_rgba r g b a

/-- `InputPalette` record from `styles/modern.rs`. -/
structure InputPalette where
  background : RGBAColor
  border_color : RGBAColor
  icon_color : RGBAColor
  placeholder_text : RGBAColor
  text : RGBAColor
  disabled_color : RGBAColor
  disabled : RGBAColor
deriving DecidableEq

/-- `ContainerPalette` record from `styles/modern.rs`. -/
structure ContainerPalette where
  text : RGBAColor
  border_radius : ℚ
  border_width : ℚ
  border_color : Option RGBAColor
  background : Option RGBAColor
deriving DecidableEq

/-- `TogglerPalette` record from `styles/modern.rs`. -/
structure TogglerPalette where
  background : RGBAColor
  foreground : RGBAColor
deriving DecidableEq

/-- `ApplicationPalette` record from `styles/modern.rs`. -/
structure ApplicationPalette where
  background : RGBAColor
  text : RGBAColor
deriving DecidableEq

/-- `ModernPalette` record from `styles/modern.rs`. -/
structure ModernPalette where
  buttons : ButtonsPalette
  inputs : InputPalette
  container : ContainerPalette
  toggler : TogglerPalette
  app : ApplicationPalette
deriving DecidableEq

/-- `ModernPalette::DARK` constant. -/
def ModernPalette.DARK : ModernPalette :=
  { buttons :=
      { text := (255, 255, 255, 100)
        principal := (253, 213, 193, 100)
        secondary := (82, 89, 96, 100)
        tag := (82, 89, 96, 100) }
    inputs :=
      { background := (39, 38, 47, 100)
        border_color := (60, 60, 60, 30)
        icon_color := (90, 90, 90, 100)
        placeholder_text := (100, 100, 100, 60)
        text := (233, 233, 233, 100)
        disabled_color := (60, 60, 60, 60)
        disabled := (60, 60, 60, 60) }
    container :=
      { text := (90, 90, 90, 100)
        border_radius := 6
        border_width := 0
        border_color := none
        background := some (60, 60, 60, 30) }
    toggler :=
      { background := (33, 35, 37, 100)
        foreground := (60, 60, 60, 100) }
    app :=
      { background := (31, 30, 37, 100)
        text := (250, 250, 242, 100) } }

/-- `ModernPalette::LIGHT` constant. -/
def ModernPalette.LIGHT : ModernPalette :=
  { buttons :=
      { text := (255, 255, 255, 100)
        principal := (51, 88, 219, 100)
        secondary := (82, 89, 96, 100)
        tag := (51, 245, 106, 100) }
    inputs :=
      { background := (250, 250, 242, 100)
        border_color := (60, 60, 60, 30)
        icon_color := (90, 90, 90, 100)
        placeholder_text := (60, 60, 60, 60)
        text := (90, 90, 90, 100)
        disabled_color := (60, 60, 60, 60)
        disabled := (60, 60, 60, 60) }
    container :=
      { text := (90, 90, 90, 100)
        border_radius := 6
        border_width := 0
        border_color := none
        background := some (60, 60, 60, 30) }
    toggler :=
      { background := (250, 250, 250, 100)
        foreground := (60, 60, 60, 30) }
    app :=
      { text := (33, 35, 37, 100)
        background := (250, 250, 242, 100) } }

/-- `ModernTheme::palette`. -/
def ModernTheme.palette : ModernTheme → ModernPalette
  | ModernTheme.Dark => ModernPalette.DARK
  | ModernTheme.Light => ModernPalette.LIGHT

/-- `Properties::BORDER_WIDTH` (defaulted trait constant). -/
def ModernTheme.BORDER_WIDTH : ℚ := 0

/-- `Properties::BORDER_RADIUS` (defaulted trait constant). -/
def ModernTheme.BORDER_RADIUS : ℚ := 6

/-- `ModernButton` style variants from `styles/modern.rs`. -/
inductive ModernButton
  | Principal
  | Secondary
  | Text
  | Tag (c : RGBColor)
deriving DecidableEq

/-- `iced_native::Vector`, used for the shadow offset of a button. -/
structure Vector2 where
  x : ℚ
  y : ℚ
deriving DecidableEq

/-- `iced::widget::button::Appearance`, with its `Default` field values;
`background : Option Color` models `Option<Background>`, whose only
constructor wraps a color. -/
structure ButtonAppearance where
  shadow_offset : Vector2 := ⟨0, 0⟩
  background : Option Color := none
  border_radius : ℚ := 0
  border_width : ℚ := 0
  border_color : Color := TRANSPARENT
  text_color : Color := BLACK
deriving DecidableEq

/-- `button::StyleSheet::active` for `ModernTheme`. -/
def ModernTheme.active (t : ModernTheme) (s : ModernButton) : ButtonAppearance :=
  match s with
  | ModernButton.Principal =>
      { background := some t.palette.buttons.primary
        border_radius := 100
        border_width := ModernTheme.BORDER_WIDTH
        border_color := TRANSPARENT
        text_color := iced_color 255 110 1 }
  | ModernButton.Secondary =>
      { background := some t.palette.buttons.secondaryColor
        border_radius := 100
        border_width := ModernTheme.BORDER_WIDTH
        border_color := TRANSPARENT
        text_color := t.palette.buttons.label }
  | ModernButton.Tag c =>
      { background := some (from_rgb c.1 c.2.1 c.2.2)
        border_radius := 100
        border_width := 0
        border_color := TRANSPARENT
        text_color := t.palette.buttons.label }
  | ModernButton.Text =>
      { background := some TRANSPARENT
        border_radius := 100
        text_color := t.palette.buttons.label }

/-- `button::StyleSheet::hovered` for `ModernTheme`. -/
def ModernTheme.hovered (t : ModernTheme) (s : ModernButton) : ButtonAppearance :=
  match s with
  | ModernButton.Secondary => t.active ModernButton.Principal
  | _ => t.active s

/-- Multiply the r, g, b channels of a color by `0.7`, keeping alpha:
the darkening applied in `button::StyleSheet::pressed`. -/
def darken07 (c : Color) : Color :=
  { c with r := c.r * 0.7, g := c.g * 0.7, b := c.b * 0.7 }

/-- Darken a whole appearance the way `pressed` does: reset the shadow
offset, darken the background color and the text color. -/
def darkenAppearance (act : ButtonAppearance) : ButtonAppearance :=
  { act with
    shadow_offset := ⟨0, 0⟩
    background := act.background.map darken07
    text_color := darken07 act.text_color }

/-- `button::StyleSheet::pressed` for `ModernTheme`: promote `Secondary`
to the `Principal` active appearance (like `hovered`), then darken. -/
def ModernTheme.pressed (t : ModernTheme) (s : ModernButton) : ButtonAppearance :=
  let act :=
    match s with
    | ModernButton.Secondary => t.active ModernButton.Principal
    | _ => t.active s
  darkenAppearance act

/-- Stated from the words of the claim under test (not from the source):
the pressed appearance darkens the variant itself in its active state,
with no Secondary-to-Principal promotion. -/
def pressed_claimed (t : ModernTheme) (s : ModernButton) : ButtonAppearance :=
  darkenAppearance (t.active s)

/-- `Inputs` record from `main.rs`. -/
structure Inputs where
  query : Str
  enabled : Bool
deriving DecidableEq

/-- `App` state record from `main.rs`. -/
structure App where
  theme : ModernTheme
  toggler : Bool
  inputs : Inputs
  searches : List Str
deriving DecidableEq

/-- `App::new`: the initial state (the returned startup command is not
modelled). -/
def App.new : App :=
  { theme := ModernTheme.Dark
    toggler := false
    inputs := { query := [], enabled := true }
    searches := [] }

/-- `Message` enumeration from `main.rs`. -/
inductive Message
  | OnPressing
  | TagSelected (tag : Str)
  | QueryChange (q : Str)
  | OnChangingTheme (b : Bool)
  | SetSearch (q : Str)
  | RemoveSearch (id : Nat)

/-- `App::update`. `Except.error s` models the panic raised by the
unchecked `self.searches[id]` access in the `RemoveSearch` arm: the
index expression is evaluated (and panics) before `Vec::remove` runs,
so the state carried by the error is the unchanged pre-crash state. -/
def update (a : App) (m : Message) : Except App App :=
  match m with
  | Message.OnPressing =>
      Except.ok
        (if trim a.inputs.query ≠ [] then
          { a with searches := trim a.inputs.query :: a.searches }
        else a)
  | Message.OnChangingTheme state =>
      Except.ok
        { a with
          toggler := state
          theme := if state then ModernTheme.Light else ModernTheme.Dark }
  | Message.QueryChange q =>
      Except.ok { a with inputs := { a.inputs with query := q } }
  | Message.SetSearch q =>
      Except.ok { a with inputs := { a.inputs with query := q } }
  | Message.TagSelected _ => Except.ok a
  | Message.RemoveSearch id =>
      if id < a.searches.length then
        Except.ok { a with searches := a.searches.eraseIdx id }
      else
        Except.error a

/-- Run a sequence of messages from a state, stopping at the first crash. -/
def run (a : App) : List Message → Except App App
  | [] => Except.ok a
  | m :: ms =>
      match update a m with
      | Except.ok b => run b ms
      | Except.error s => Except.error s

/-- The empty-history placeholder string
(the source text contains an apostrophe, built here with `Char.ofNat 39`). -/
def empty_placeholder : Str :=
  "You didn".toList ++ [Char.ofNat 39] ++ "t searched anything yet...".toList

/-- Abstraction of the history panel part of the rendered view: either the
empty-history placeholder message, or one row per history entry,
each row carrying the displayed text and the index tagged on its
remove button (`Message::RemoveSearch(id)`). -/
inductive HistPanel
  | empty (msg : Str)
  | rows (rs : List (Str × Nat))
deriving DecidableEq

/-- `empty_message` from `main.rs`, abstracted to its placeholder text. -/
def empty_message (msg : Str) : HistPanel :=
  HistPanel.empty msg

/-- `historial_text` from `main.rs`, abstracted to the displayed text and
the remove-button index. -/
def historial_text (query : Str) (id : Nat) : Str × Nat :=
  (query, id)

/-- `show_historial` from `main.rs`: one row per entry, in list order,
displaying the trimmed text, the remove button tagged with the
enumeration index. -/
def show_historial (queries : List Str) : List (Str × Nat) :=
  queries.enum.map (fun p => historial_text (trim p.2) p.1)

/-- The `historial_container` branch of `App::view`. -/
def historial_container (a : App) : HistPanel :=
  if a.searches = [] then empty_message empty_placeholder
  else HistPanel.rows (show_historial a.searches)

/-- C1: submitting (`OnPressing`) with a query whose trim is non-empty
inserts the trimmed copy at the front of the history, removing nothing
else, and with an empty or whitespace-only query it changes nothing;
in both cases every other field, the query text included, is untouched
(the record update rewrites only `searches`). -/
theorem onPressing_spec (a : App) :
    (trim a.inputs.query ≠ [] →
      update a Message.OnPressing =
        Except.ok { a with searches := trim a.inputs.query :: a.searches }) ∧
    (trim a.inputs.query = [] →
      update a Message.OnPressing = Except.ok a) := by
  constructor
  · intro h
    simp [update, h]
  · intro h
    simp [update, h]

/-- Witness for C1: submitting the query `" hello "` on the initial
(empty-history) state yields history `["hello"]` with the query field
unchanged, and submitting the empty initial query changes nothing. -/
theorem onPressing_spec_witness :
    update { App.new with inputs := { query := " hello ".toList, enabled := true } }
        Message.OnPressing =
      Except.ok
        { App.new with
          inputs := { query := " hello ".toList, enabled := true }
          searches := ["hello".toList] } ∧
    update App.new Message.OnPressing = Except.ok App.new :=
  ⟨(onPressing_spec
      { App.new with inputs := { query := " hello ".toList, enabled := true } }).1
      (by decide),
   (onPressing_spec App.new).2 (by decide)⟩

/-- C2: `RemoveSearch i` with `i` in range deletes exactly the entry at
position `i`, keeping the remaining entries in order (prefix before `i`
followed by suffix after `i`); with `i` out of range it takes the crash
path, and the state carried at the crash is the unchanged input state. -/
theorem removeSearch_spec (a : App) (i : Nat) :
    (i < a.searches.length →
      update a (Message.RemoveSearch i) =
        Except.ok { a with searches := a.searches.take i ++ a.searches.drop (i + 1) }) ∧
    (a.searches.length ≤ i →
      update a (Message.RemoveSearch i) = Except.error a) := by
  constructor
  · intro h
    simp [update, h, List.eraseIdx_eq_take_drop_succ]
  · intro h
    simp [update, Nat.not_lt.mpr h]

/-- Witness for C2: removing index 0 from history `["a", "b"]` yields
`["b"]`, and removing index 5 from the same two-element history crashes
with the state unchanged. -/
theorem removeSearch_spec_witness :
    update { App.new with searches := [['a'], ['b']] } (Message.RemoveSearch 0) =
      Except.ok { App.new with searches := [['b']] } ∧
    update { App.new with searches := [['a'], ['b']] } (Message.RemoveSearch 5) =
      Except.error { App.new with searches := [['a'], ['b']] } :=
  ⟨(removeSearch_spec { App.new with searches := [['a'], ['b']] } 0).1 (by decide),
   (removeSearch_spec { App.new with searches := [['a'], ['b']] } 5).2 (by decide)⟩

/-- C3: `OnChangingTheme flag` sets the toggle flag to `flag` and the
theme to Light when the flag is true and Dark otherwise; toggling true
then false from the initial state returns exactly the initial state, so
the resolved palette afterwards is the initial Dark palette. -/
theorem onChangingTheme_spec :
    (∀ (a : App) (b : Bool),
      update a (Message.OnChangingTheme b) =
        Except.ok
          { a with
            toggler := b
            theme := if b then ModernTheme.Light else ModernTheme.Dark }) ∧
    run App.new [Message.OnChangingTheme true, Message.OnChangingTheme false] =
      Except.ok App.new ∧
    App.new.theme.palette = ModernPalette.DARK :=
  ⟨fun _ _ => rfl, rfl, rfl⟩

/-- C5: the shared conversion divides channels by 255 and alpha by 100;
`(255,255,255,100)` maps to `(1,1,1,1)`, `(127,0,255,50)` maps to
`(≈0.498039, 0, 1, 0.5)` within `1e-6`, and the RGB convenience form
agrees with the RGBA form at alpha 100. -/
theorem color_conversion_spec :
    (∀ r g b a : ℚ,
      from_rgba r g b a = Color.mk (r / 255) (g / 255) (b / 255) (a / 100)) ∧
    from_rgba 255 255 255 100 = Color.mk 1 1 1 1 ∧
    (|(from_rgba 127 0 255 50).r - 498039 / 1000000| < 1 / 1000000 ∧
      (from_rgba 127 0 255 50).g = 0 ∧
      (from_rgba 127 0 255 50).b = 1 ∧
      (from_rgba 127 0 255 50).a = 1 / 2) ∧
    (∀ r g b : ℚ, from_rgb r g b = from_rgba r g b 100) := by
  refine ⟨fun r g b a => rfl, ?_, ⟨?_, ?_, ?_, ?_⟩, fun r g b => ?_⟩
  · simp only [from_rgba]
    norm_num
  · simp only [from_rgba]
    rw [abs_sub_lt_iff]
    norm_num
  · norm_num [from_rgba]
  · norm_num [from_rgba]
  · norm_num [from_rgba]
  · simp only [from_rgb, from_rgba]
    norm_num

/-- C7: the active background of a `Tag` button is the supplied accent
color converted with the RGB (opaque) rule, under the Dark theme and the
Light theme alike, so it does not depend on the active theme's palette. -/
theorem tag_background_theme_spec (r g b : ℚ) :
    (ModernTheme.Dark.active (ModernButton.Tag (r, g, b))).background =
      some (from_rgb r g b) ∧
    (ModernTheme.Light.active (ModernButton.Tag (r, g, b))).background =
      some (from_rgb r g b) ∧
    (ModernTheme.Dark.active (ModernButton.Tag (r, g, b))).background =
      (ModernTheme.Light.active (ModernButton.Tag (r, g, b))).background :=
  ⟨rfl, rfl, rfl⟩

/-- C9: `TagSelected` only reports the selection (a print); the whole
application state is returned unchanged. -/
theorem tagSelected_spec (a : App) (tag : Str) :
    update a (Message.TagSelected tag) = Except.ok a :=
  rfl

/-- C6 counterexample: for the Secondary variant under the Dark theme,
the pressed appearance is not the darkening of the variant's own active
appearance — the code first promotes Secondary to the Principal active
appearance and darkens that. -/
theorem pressed_secondary_counterexample :
    ModernTheme.Dark.pressed ModernButton.Secondary ≠
      pressed_claimed ModernTheme.Dark ModernButton.Secondary := by
  intro h
  have hb : some (darken07 ModernTheme.Dark.palette.buttons.primary) =
      some (darken07 ModernTheme.Dark.palette.buttons.secondaryColor) :=
    congrArg ButtonAppearance.background h
  have hr : ModernTheme.Dark.palette.buttons.primary.r * (0.7 : ℚ) =
      ModernTheme.Dark.palette.buttons.secondaryColor.r * (0.7 : ℚ) :=
    congrArg Color.r (Option.some.inj hb)
  norm_num [ModernTheme.palette, ModernPalette.DARK, ButtonsPalette.primary,
    ButtonsPalette.secondaryColor, from_rgba] at hr

/-- C6 as amended: hovered promotes Secondary to the Principal active
appearance and leaves every other variant at its own active appearance;
pressed darkens (channels times 0.7, alpha kept) the active appearance
obtained after the same Secondary-to-Principal promotion, so a
non-Secondary variant darkens its own active appearance while Secondary
darkens the Principal one; the active border radius is 100 for all
variants. -/
theorem button_styles_amended (t : ModernTheme) (s : ModernButton) :
    t.hovered ModernButton.Secondary = t.active ModernButton.Principal ∧
    (s ≠ ModernButton.Secondary → t.hovered s = t.active s) ∧
    t.pressed ModernButton.Secondary =
      darkenAppearance (t.active ModernButton.Principal) ∧
    (s ≠ ModernButton.Secondary →
      t.pressed s = darkenAppearance (t.active s)) ∧
    (t.active s).border_radius = 100 := by
  refine ⟨rfl, ?_, rfl, ?_, ?_⟩
  · intro h
    cases s <;> first | rfl | exact absurd rfl h
  · intro h
    cases s <;> first | rfl | exact absurd rfl h
  · cases s <;> rfl

/-- Witness for C6 as amended: the Text variant under the Dark theme is
unchanged by hover and its pressed appearance darkens its own active
appearance. -/
theorem button_styles_amended_witness :
    ModernTheme.Dark.hovered ModernButton.Text =
      ModernTheme.Dark.active ModernButton.Text ∧
    ModernTheme.Dark.pressed ModernButton.Text =
      darkenAppearance (ModernTheme.Dark.active ModernButton.Text) :=
  ⟨(button_styles_amended ModernTheme.Dark ModernButton.Text).2.1 (by decide),
   (button_styles_amended ModernTheme.Dark ModernButton.Text).2.2.2.1 (by decide)⟩

/-- C8: the view shows the empty-history placeholder exactly when the
history is empty; otherwise it shows one row per history entry, in list
order, the row at position `i` displaying the trimmed text of entry `i`
with its remove button tagged with index `i`. -/
theorem view_historial_spec (a : App) :
    (historial_container a = empty_message empty_placeholder ↔ a.searches = []) ∧
    (a.searches ≠ [] →
      historial_container a = HistPanel.rows (show_historial a.searches)) ∧
    (show_historial a.searches).length = a.searches.length ∧
    (∀ (i : Nat) (h : i < a.searches.length),
      (show_historial a.searches)[i]? =
        some (trim (a.searches.get ⟨i, h⟩), i)) := by
  refine ⟨?_, ?_, ?_, ?_⟩
  · by_cases hs : a.searches = [] <;>
      simp [historial_container, hs, empty_message]
  · intro hs
    simp [historial_container, hs]
  · simp [show_historial, List.enum_length]
  · intro i h
    simp [show_historial, historial_text, List.getElem?_enum,
      List.getElem?_eq_getElem h, List.get_eq_getElem]

/-- Witness for C8: the initial empty-history state renders the
placeholder, and on history `["a", "b"]` row 0 displays the trimmed
first entry with remove index 0. -/
theorem view_historial_spec_witness :
    historial_container App.new = empty_message empty_placeholder ∧
    (show_historial [['a'], ['b']])[0]? = some (trim ['a'], 0) :=
  ⟨(view_historial_spec App.new).1.mpr rfl,
   (view_historial_spec { App.new with searches := [['a'], ['b']] }).2.2.2 0
     (by decide)⟩

/-- If dropping the longest prefix satisfying `p` leaves a non-empty
list, that list contains an element refuting `p`. -/
theorem any_not_of_dropWhile_ne_nil {α} (p : α → Bool) (l : List α)
    (h : l.dropWhile p ≠ []) :
    (l.dropWhile p).any (fun c => !(p c)) = true := by
  induction l with
  | nil => exact absurd rfl h
  | cons c tl ih =>
    cases hpc : p c with
    | true =>
      rw [List.dropWhile_cons, hpc] at h ⊢
      simpa using ih h
    | false =>
      rw [List.dropWhile_cons, hpc]
      simp [hpc]

/-- A non-empty trimmed string contains a non-whitespace character. -/
theorem trim_any_not_whitespace (q : Str) (h : trim q ≠ []) :
    (trim q).any (fun c => !(c.isWhitespace)) = true := by
  rw [trim] at h ⊢
  rw [List.any_reverse]
  apply any_not_of_dropWhile_ne_nil
  intro hnil
  exact h (by rw [hnil]; rfl)

/-- Every element of `eraseIdx l i` is an element of `l`. -/
theorem mem_of_mem_eraseIdx' {α} {l : List α} {i : Nat} {x : α}
    (h : x ∈ l.eraseIdx i) : x ∈ l := by
  rw [List.eraseIdx_eq_take_drop_succ] at h
  rcases List.mem_append.mp h with h1 | h1
  · exact List.take_subset i l h1
  · exact List.drop_subset (i + 1) l h1

/-- One transition preserves the invariant that every history entry has
a non-whitespace character. -/
theorem update_preserves_nonblank (a : App) (m : Message) (b : App)
    (hInv : ∀ s ∈ a.searches, s.any (fun c => !(c.isWhitespace)) = true)
    (h : update a m = Except.ok b) :
    ∀ s ∈ b.searches, s.any (fun c => !(c.isWhitespace)) = true := by
  cases m with
  | OnPressing =>
    by_cases hq : trim a.inputs.query = []
    · have hb : a = b := by simpa [update, hq] using h
      exact hb ▸ hInv
    · have hb : { a with searches := trim a.inputs.query :: a.searches } = b := by
        simpa [update, hq] using h
      subst hb
      intro s hs
      rcases List.mem_cons.mp hs with h1 | h1
      · exact h1 ▸ trim_any_not_whitespace _ hq
      · exact hInv s h1
  | TagSelected tag =>
    have hb : a = b := by simpa [update] using h
    exact hb ▸ hInv
  | QueryChange q =>
    have hb : { a with inputs := { a.inputs with query := q } } = b := by
      simpa [update] using h
    subst hb
    exact hInv
  | SetSearch q =>
    have hb : { a with inputs := { a.inputs with query := q } } = b := by
      simpa [update] using h
    subst hb
    exact hInv
  | OnChangingTheme flag =>
    have hb :
        { a with
          toggler := flag
          theme := if flag then ModernTheme.Light else ModernTheme.Dark } = b := by
      simpa [update] using h
    subst hb
    exact hInv
  | RemoveSearch id =>
    by_cases hid : id < a.searches.length
    · have hb : { a with searches := a.searches.eraseIdx id } = b := by
        simpa [update, hid] using h
      subst hb
      intro s hs
      exact hInv s (mem_of_mem_eraseIdx' hs)
    · simp [update, hid] at h

/-- Running a message list from a state satisfying the non-blank history
invariant ends (when it does not crash) in a state satisfying it. -/
theorem run_preserves_nonblank (msgs : List Message) (a b : App)
    (hInv : ∀ s ∈ a.searches, s.any (fun c => !(c.isWhitespace)) = true)
    (h : run a msgs = Except.ok b) :
    ∀ s ∈ b.searches, s.any (fun c => !(c.isWhitespace)) = true := by
  induction msgs generalizing a with
  | nil =>
    have hb : a = b := by simpa [run] using h
    exact hb ▸ hInv
  | cons m ms ih =>
    rw [run] at h
    cases hu : update a m with
    | ok c =>
      rw [hu] at h
      exact ih c (update_preserves_nonblank a m c hInv hu) h
    | error s =>
      rw [hu] at h
      exact absurd h (by simp)

/-- C4: in every state reachable from the initial state, every history
entry contains a non-whitespace character, i.e. no entry is empty or
whitespace-only — the trim guard before insertion is an invariant. -/
theorem history_nonblank_invariant (msgs : List Message) (a : App)
    (h : run App.new msgs = Except.ok a) :
    ∀ s ∈ a.searches, s.any (fun c => !(c.isWhitespace)) = true :=
  run_preserves_nonblank msgs App.new a (by simp [App.new]) h

/-- Witness for C4: after setting the query to `" hi "` and submitting,
the single resulting history entry `"hi"` has a non-whitespace
character. -/
theorem history_nonblank_invariant_witness :
    (['h', 'i'] : Str).any (fun c => !(c.isWhitespace)) = true :=
  history_nonblank_invariant
    [Message.QueryChange [' ', 'h', 'i', ' '], Message.OnPressing]
    { App.new with
      inputs := { query := [' ', 'h', 'i', ' '], enabled := true }
      searches := [['h', 'i']] }
    rfl ['h', 'i'] (by simp)

/-- One transition preserves agreement between the theme and the toggle
flag. -/
theorem update_preserves_theme_toggler (a : App) (m : Message) (b : App)
    (hInv : a.theme = ModernTheme.Light ↔ a.toggler = true)
    (h : update a m = Except.ok b) :
    b.theme = ModernTheme.Light ↔ b.toggler = true := by
  cases m with
  | OnPressing =>
    by_cases hq : trim a.inputs.query = []
    · have hb : a = b := by simpa [update, hq] using h
      exact hb ▸ hInv
    · have hb : { a with searches := trim a.inputs.query :: a.searches } = b := by
        simpa [update, hq] using h
      subst hb
      exact hInv
  | TagSelected tag =>
    have hb : a = b := by simpa [update] using h
    exact hb ▸ hInv
  | QueryChange q =>
    have hb : { a with inputs := { a.inputs with query := q } } = b := by
      simpa [update] using h
    subst hb
    exact hInv
  | SetSearch q =>
    have hb : { a with inputs := { a.inputs with query := q } } = b := by
      simpa [update] using h
    subst hb
    exact hInv
  | OnChangingTheme flag =>
    have hb :
        { a with
          toggler := flag
          theme := if flag then ModernTheme.Light else ModernTheme.Dark } = b := by
      simpa [update] using h
    subst hb
    cases flag <;> simp
  | RemoveSearch id =>
    by_cases hid : id < a.searches.length
    · have hb : { a with searches := a.searches.eraseIdx id } = b := by
        simpa [update, hid] using h
      subst hb
      exact hInv
    · simp [update, hid] at h

/-- Running a message list preserves agreement between the theme and the
toggle flag. -/
theorem run_preserves_theme_toggler (msgs : List Message) (a b : App)
    (hInv : a.theme = ModernTheme.Light ↔ a.toggler = true)
    (h : run a msgs = Except.ok b) :
    b.theme = ModernTheme.Light ↔ b.toggler = true := by
  induction msgs generalizing a with
  | nil =>
    have hb : a = b := by simpa [run] using h
    exact hb ▸ hInv
  | cons m ms ih =>
    rw [run] at h
    cases hu : update a m with
    | ok c =>
      rw [hu] at h
      exact ih c (update_preserves_theme_toggler a m c hInv hu) h
    | error s =>
      rw [hu] at h
      exact absurd h (by simp)

/-- C10: in every state reachable from the initial state, the theme is
Light exactly when the toggle flag is true — the two fields are only
ever updated together by the theme-toggled transition. -/
theorem theme_toggler_agree_invariant (msgs : List Message) (a : App)
    (h : run App.new msgs = Except.ok a) :
    a.theme = ModernTheme.Light ↔ a.toggler = true :=
  run_preserves_theme_toggler msgs App.new a (by simp [App.new]) h

/-- Witness for C10: after toggling the theme on, the reached state has
the Light theme and the flag set, and the two agree. -/
theorem theme_toggler_agree_witness :
    ({ App.new with toggler := true, theme := ModernTheme.Light } : App).theme =
        ModernTheme.Light ↔
      ({ App.new with toggler := true, theme := ModernTheme.Light } : App).toggler =
        true :=
  theme_toggler_agree_invariant [Message.OnChangingTheme true] _ rfl

end CapySearch
